import Mathlib

/-!
# Image conversion front end: upload page and result page controllers

A shallow embedding of `static/script.js` (the upload page) and
`static/js/view_script.js` (the result page).

Conventions of the embedding.

* Every handler is a pure function on a record holding the part of the DOM
  the scripts read or write.
* An element the script dereferences without a null check (`fileInput`,
  `convertBtn`, `filePreview`, `.container`, `.header`, `toast`) is taken to
  exist; an element the script tests before use (`.file-text`, `.file-icon`,
  `.error-message`, `.toast-message`, `convertedImage`, ...) is an `Option`.
* A listener attached with `addEventListener` cancels the default action of
  its event only by calling `preventDefault`; the value it returns is
  discarded.
* `setTimeout(f, d)` appends `(d, f)` to the list of pending timers of the
  page; the callback `f` is a constructor of a small action type and has its
  own function that runs it.
* File sizes are natural numbers.  For a byte count below `2 ^ 53` the
  quotient `bytes / Math.pow(1024, i)` is an exact double (division by a power
  of two), so it is modelled by an exact fraction; `toFixed(2)` rounds that
  fraction to hundredths, ties upwards, as ECMAScript prescribes.
  `Math.floor(Math.log(bytes) / Math.log(1024))` is modelled by the exact
  integer logarithm `Nat.log 1024 bytes`.
-/

namespace ImageBackgroundRemove

/-- The `classList.add(c)` operation on a token list. -/
def classListAdd (cs : List String) (c : String) : List String :=
  if c ∈ cs then cs else cs ++ [c]

/-- The `classList.remove(c)` operation on a token list. -/
def classListRemove (cs : List String) (c : String) : List String :=
  cs.filter (fun x => x != c)

/-- The value `(num / den).toFixed(2)` denotes, counted in hundredths: the
integer `h` with `h / 100` nearest to `num / den`, the larger one on a tie. -/
def toFixed2 (num den : Nat) : Nat :=
  (200 * num + den) / (2 * den)

/-- The string JavaScript gives to `parseFloat(t) + ''` when `t` is the
two-decimal numeral of `h` hundredths: trailing zeros of the fraction are
dropped, and so is the decimal point of a whole number. -/
def showHundredths (h : Nat) : String :=
  if h % 100 = 0 then toString (h / 100)
  else if h % 10 = 0 then toString (h / 100) ++ "." ++ toString (h % 100 / 10)
  else toString (h / 100) ++ "." ++ toString (h % 100 / 10) ++ toString (h % 10)

/-- What `' ' + sizes[i]` appends: the i-th unit name, or `undefined` when
the index is outside the four-element array. -/
def unitName (sizes : List String) (i : Nat) : String :=
  (sizes.get? i).getD "undefined"

/-- A browser `File`: the fields the scripts read. -/
structure File where
  name : String
  type : String
  size : Nat
deriving DecidableEq, Repr

namespace Upload

/-- Callbacks the upload page hands to `setTimeout`. -/
inductive TimerAction where
  /-- The callback of `showError`: detach the banner element it captured. -/
  | removeError (element : Nat)
deriving DecidableEq, Repr

/-- The upload page as `script.js` sees it. -/
structure Page where
  /-- The list `fileInput.files`. -/
  files : List File
  /-- The flag `convertBtn.disabled`. -/
  convertDisabled : Bool
  /-- The text `convertBtn.textContent`. -/
  convertText : String
  /-- The list `convertBtn.classList`. -/
  convertClasses : List String
  /-- The style `filePreview.style.display`. -/
  previewDisplay : String
  /-- The attribute `previewImg.src`. -/
  previewSrc : String
  /-- The text `fileInfo.textContent`. -/
  fileInfo : String
  /-- The list `fileLabel.classList`. -/
  labelClasses : List String
  /-- Text of `.file-text` inside the label, when that element exists. -/
  fileText : Option String
  /-- Text of `.file-icon` inside the label, when that element exists. -/
  fileIcon : Option String
  /-- The attached `.error-message` element: its identity and its text. -/
  errorElement : Option (Nat × String)
  /-- Whether a `.flash-messages` container is in the document. -/
  flashMessages : Bool
  /-- Identity given to the next created element. -/
  nextElement : Nat
  /-- Pending `setTimeout` callbacks with their delay in milliseconds. -/
  timers : List (Nat × TimerAction)
  /-- Files handed to a `FileReader` whose read has not completed. -/
  reads : List File
deriving DecidableEq, Repr

/-- The function `handleDragOver`; the result flag is `e.preventDefault()`. -/
def handleDragOver (s : Page) : Page × Bool :=
  ({ s with labelClasses := classListAdd s.labelClasses "dragover" }, true)

/-- The function `handleDragLeave`. -/
def handleDragLeave (s : Page) : Page :=
  { s with labelClasses := classListRemove s.labelClasses "dragover" }

/-- The array `allowedTypes` of `isValidImageFile`. -/
def allowedTypes : List String :=
  ["image/png", "image/jpeg", "image/jpg", "image/gif", "image/bmp", "image/tiff", "image/webp"]

/-- The function `isValidImageFile`. -/
def isValidImageFile (file : File) : Bool :=
  allowedTypes.contains file.type

/-- The function `updateFileLabel`. -/
def updateFileLabel (file : File) (s : Page) : Page :=
  match s.fileText, s.fileIcon with
  | some _, some _ => { s with fileText := some file.name, fileIcon := some "✅" }
  | _, _ => s

/-- The function `formatFileSize` of `script.js`. -/
def formatFileSize (bytes : Nat) : String :=
  if bytes = 0 then "0 Bytes"
  else
    let k := 1024
    let sizes := ["Bytes", "KB", "MB", "GB"]
    let i := Nat.log k bytes
    showHundredths (toFixed2 bytes (k ^ i)) ++ " " ++ unitName sizes i

/-- The function `showError`. -/
def showError (message : String) (s : Page) : Page :=
  let element := match s.errorElement with
    | some e => e.1
    | none => s.nextElement
  let s1 := match s.errorElement with
    | some _ => s
    | none => { s with flashMessages := true, nextElement := s.nextElement + 1 }
  { s1 with
    errorElement := some (element, message)
    timers := s1.timers ++ [(5000, TimerAction.removeError element)] }

/-- Running a timer callback of the upload page. -/
def runTimer (a : TimerAction) (s : Page) : Page :=
  match a with
  | .removeError element =>
    match s.errorElement with
    | some e => if e.1 = element then { s with errorElement := none } else s
    | none => s

/-- The function `showImagePreview`: the read is started here and finishes
in `readerOnload` or `readerOnerror`. -/
def showImagePreview (file : File) (s : Page) : Page :=
  if "image/".toList.isPrefixOf file.type.toList then { s with reads := s.reads ++ [file] }
  else s

/-- The `reader.onload` callback of `showImagePreview`. -/
def readerOnload (file : File) (result : String) (s : Page) : Page :=
  { s with
    previewSrc := result
    previewDisplay := "block"
    fileInfo := file.name ++ " (" ++ formatFileSize file.size ++ ")" }

/-- The `reader.onerror` callback of `showImagePreview`. -/
def readerOnerror (s : Page) : Page :=
  showError "Error reading file" s

/-- The function `resetFileInput`. -/
def resetFileInput (s : Page) : Page :=
  let s1 := { s with files := [], convertDisabled := true, previewDisplay := "none" }
  match s1.fileText, s1.fileIcon with
  | some _, some _ =>
    { s1 with
      fileText := some "Click to select an image or drag and drop"
      fileIcon := some "📁" }
  | _, _ => s1

/-- The function `handleFileSelect`. -/
def handleFileSelect (s : Page) : Page :=
  match s.files.head? with
  | none => s
  | some file =>
    if !isValidImageFile file then
      resetFileInput (showError "Please select a valid image file" s)
    else if file.size > 16 * 1024 * 1024 then
      resetFileInput (showError "File size must be less than 16MB" s)
    else
      showImagePreview file (updateFileLabel file { s with convertDisabled := false })

/-- The function `handleDrop` on a drop carrying `files`; the result flag is
`e.preventDefault()`. -/
def handleDrop (files : List File) (s : Page) : Page × Bool :=
  let s1 := { s with labelClasses := classListRemove s.labelClasses "dragover" }
  if files.length > 0 then (handleFileSelect { s1 with files := files }, true)
  else (s1, true)

/-- The function `handleFormSubmit`: the page it leaves and the value it
returns. -/
def handleFormSubmit (s : Page) : Page × Bool :=
  match s.files.head? with
  | none => (showError "Please select a file first" s, false)
  | some _ =>
    ({ s with
       convertText := "Converting..."
       convertDisabled := true
       convertClasses := classListAdd s.convertClasses "loading" }, true)

/-- What one run of an event listener leaves behind: the page, whether the
listener called `preventDefault` on the event, and the value it returned. -/
structure ListenerRun where
  page : Page
  defaultPrevented : Bool
  returned : Bool
deriving DecidableEq, Repr

/-- The listeners `initializeFormHandling` attaches to the `submit` event of
the form: `handleFormSubmit`, when the form exists.  The function is declared
without an event parameter and never calls `preventDefault`. -/
def initializeFormHandling (uploadForm : Bool) : List (Page → ListenerRun) :=
  if uploadForm then
    [fun s => { page := (handleFormSubmit s).1, defaultPrevented := false,
                returned := (handleFormSubmit s).2 }]
  else []

/-- Dispatch of an event to listeners attached with `addEventListener`: each
runs in turn, the value a listener returns is discarded, and the default
action of the event goes ahead unless a listener called `preventDefault`.
The result is the page and whether the default action goes ahead. -/
def dispatchEvent (listeners : List (Page → ListenerRun)) (s : Page) : Page × Bool :=
  listeners.foldl
    (fun acc l => ((l acc.1).page, acc.2 && !(l acc.1).defaultPrevented)) (s, true)

/-- A `submit` event on the upload form: the page afterwards and whether the
browser goes on to submit the form. -/
def submitEvent (s : Page) : Page × Bool :=
  dispatchEvent (initializeFormHandling true) s

/-- The function `getSelectedFormat` over the `conversion_type` inputs, each
given by its `checked` flag and its value. -/
def getSelectedFormat (formatInputs : List (Bool × String)) : String :=
  match formatInputs.find? (fun input => input.1) with
  | some input => input.2
  | none => "png"

/-- User events of the upload page. -/
inductive Action where
  /-- The browser sets `fileInput.files` to the chosen files, possibly none,
  and fires `change`. -/
  | change (files : List File)
  /-- A drop on the label carrying `files`. -/
  | drop (files : List File)
  /-- A `submit` event on the form. -/
  | submit
  /-- A call of `resetFileInput`. -/
  | reset
deriving DecidableEq, Repr

/-- The page after one user event. -/
def step (s : Page) : Action → Page
  | .change files => handleFileSelect { s with files := files }
  | .drop files => (handleDrop files s).1
  | .submit => (submitEvent s).1
  | .reset => resetFileInput s

/-- The page after a sequence of user events. -/
def run (s : Page) (as : List Action) : Page :=
  as.foldl step s

/-- The upload page as loaded: no file chosen, the convert button disabled,
the label showing its prompt, no banner. -/
def initialPage : Page :=
  { files := []
    convertDisabled := true
    convertText := "Convert"
    convertClasses := ["convert-btn"]
    previewDisplay := "none"
    previewSrc := ""
    fileInfo := ""
    labelClasses := []
    fileText := some "Click to select an image or drag and drop"
    fileIcon := some "📁"
    errorElement := none
    flashMessages := false
    nextElement := 0
    timers := []
    reads := [] }

/-- Whether the file input holds a file that passes both checks of
`handleFileSelect`. -/
def holdsValidFile (s : Page) : Bool :=
  match s.files.head? with
  | some file => isValidImageFile file && decide (file.size ≤ 16 * 1024 * 1024)
  | none => false

/-- Whether a user event brings a file along: a `change` event does when its
file list is not empty; the other events need none. -/
def carriesFile : Action → Bool
  | .change files => !files.isEmpty
  | _ => true

/-- A small PNG file. -/
def smallPng : File :=
  { name := "photo.png", type := "image/png", size := 2 * 1024 * 1024 }

/-- A PNG file of exactly 16 MiB. -/
def fullPng : File :=
  { name := "full.png", type := "image/png", size := 16 * 1024 * 1024 }

/-- A PDF document of 20 MB. -/
def pdfFile : File :=
  { name := "doc.pdf", type := "application/pdf", size := 20000000 }

end Upload

namespace View

/-- The function `formatFileSize` of `view_script.js`. -/
def formatFileSize (bytes : Nat) : String :=
  if bytes = 0 then "0 Bytes"
  else
    let k := 1024
    let sizes := ["Bytes", "KB", "MB", "GB"]
    let i := Nat.log k bytes
    showHundredths (toFixed2 bytes (k ^ i)) ++ " " ++ unitName sizes i

/-- Callbacks the result page hands to `setTimeout`. -/
inductive TimerAction where
  /-- The callback of `showToast`: remove the class `show` from the toast. -/
  | hideToast
deriving DecidableEq, Repr

/-- The element `#toast` with the two children `showToast` looks up. -/
structure Toast where
  /-- Text of `.toast-message`, when that element exists. -/
  message : Option String
  /-- Text of `.toast-icon`, when that element exists. -/
  icon : Option String
  /-- The style `toast.style.background`. -/
  background : String
  /-- The list `toast.classList`. -/
  classes : List String
deriving DecidableEq, Repr

/-- The element `#convertedImage`. -/
structure Image where
  /-- The value of `getAttribute('src')`, `none` for `null`. -/
  srcAttr : Option String
  /-- The style `image.style.transform`. -/
  transform : String
  /-- The style `image.style.cursor`. -/
  cursor : String
  /-- The attribute `image.title`. -/
  title : String
deriving DecidableEq, Repr

/-- The result page as `view_script.js` sees it. -/
structure Page where
  /-- The string `window.location.origin`. -/
  origin : String
  /-- The element `#convertedImage`, when it exists. -/
  image : Option Image
  /-- The style `overflow` of `.image-wrapper`, when that element exists. -/
  wrapperOverflow : Option String
  /-- The variable `isZoomed` of the `dblclick` listener, once
  `addImageZoom` has attached it. -/
  isZoomed : Option Bool
  /-- The element `#toast`. -/
  toast : Toast
  /-- Whether `navigator.clipboard` is present. -/
  clipboardApi : Bool
  /-- The flag `window.isSecureContext`. -/
  secureContext : Bool
  /-- Text on the system clipboard. -/
  clipboard : String
  /-- Values of the `textarea` elements appended to the body. -/
  textAreas : List String
  /-- Pending `setTimeout` callbacks with their delay in milliseconds. -/
  timers : List (Nat × TimerAction)
deriving DecidableEq, Repr

/-- The function `setupImageInteractions`. -/
def setupImageInteractions (s : Page) : Page :=
  match s.image, s.wrapperOverflow with
  | some image, some _ =>
    { s with image := some { image with
        cursor := "pointer", title := "Click to view full size in new tab" } }
  | _, _ => s

/-- The function `showToast`. -/
def showToast (message : String) (isSuccess : Bool) (s : Page) : Page :=
  match s.toast.message, s.toast.icon with
  | some _, some _ =>
    { s with
      toast :=
        { message := some message
          icon := some (if isSuccess then "✅" else "❌")
          background := if isSuccess then "#28a745" else "#dc3545"
          classes := classListAdd s.toast.classes "show" }
      timers := s.timers ++ [(3000, TimerAction.hideToast)] }
  | _, _ => s

/-- Running a timer callback of the result page. -/
def runTimer (a : TimerAction) (s : Page) : Page :=
  match a with
  | .hideToast => { s with toast := { s.toast with
      classes := classListRemove s.toast.classes "show" } }

/-- How `document.execCommand('copy')` ends in the fallback path. -/
inductive ExecOutcome where
  /-- It copies the selected text and returns `true`. -/
  | copied
  /-- It copies nothing and returns `false`. -/
  | refused
  /-- It throws. -/
  | threw
deriving DecidableEq, Repr

/-- The function `copyImageUrl`.  The flag `writeOk` says whether the promise of
`navigator.clipboard.writeText` resolves, `exec` how `execCommand` ends. -/
def copyImageUrl (writeOk : Bool) (exec : ExecOutcome) (s : Page) : Page :=
  match s.image with
  | none => showToast "Error: Image not found" false s
  | some image =>
    let imageUrl := s.origin ++ image.srcAttr.getD "null"
    if s.clipboardApi && s.secureContext then
      if writeOk then
        showToast "Link copied to clipboard!" true { s with clipboard := imageUrl }
      else
        showToast "Failed to copy link" false s
    else
      let s1 := { s with textAreas := s.textAreas ++ [imageUrl] }
      let s2 := match exec with
        | .copied => showToast "Link copied to clipboard!" true { s1 with clipboard := imageUrl }
        | .refused => showToast "Link copied to clipboard!" true s1
        | .threw => showToast "Failed to copy link" false s1
      { s2 with textAreas := s2.textAreas.dropLast }

/-- The fields of a `keydown` event the listener reads. -/
structure KeyEvent where
  ctrlKey : Bool
  metaKey : Bool
  key : String
deriving DecidableEq, Repr

/-- Calls the `keydown` listener makes. -/
inductive Call where
  /-- The call `downloadBtn.click()`. -/
  | clickDownload
  /-- The call `copyImageUrl()`. -/
  | copyImageUrl
  /-- The assignment `window.location.href = backBtn.href`. -/
  | navigate (href : String)
deriving DecidableEq, Repr

/-- What one run of the `keydown` listener does: whether it called
`e.preventDefault()`, and the calls it made, in order. -/
structure KeyRun where
  defaultPrevented : Bool
  calls : List Call
deriving DecidableEq, Repr

/-- The `keydown` listener.  `selection` is `window.getSelection().toString()`,
`downloadBtn` says whether `.btn-download` exists, `backBtn` is the `href` of
`.btn-convert-another` when that element exists. -/
def keydown (e : KeyEvent) (selection : String) (downloadBtn : Bool)
    (backBtn : Option String) : KeyRun :=
  let r0 : KeyRun := { defaultPrevented := false, calls := [] }
  let r1 : KeyRun :=
    if (e.ctrlKey || e.metaKey) && e.key == "s" then
      { defaultPrevented := true
        calls := if downloadBtn then r0.calls ++ [Call.clickDownload] else r0.calls }
    else r0
  let r2 : KeyRun :=
    if (e.ctrlKey || e.metaKey) && e.key == "c" && selection == "" then
      { defaultPrevented := true, calls := r1.calls ++ [Call.copyImageUrl] }
    else r1
  if e.key == "Escape" then
    match backBtn with
    | some href => { r2 with calls := r2.calls ++ [Call.navigate href] }
    | none => r2
  else r2

/-- An element matched by `.btn`: the fields the click listener reads or
writes. -/
structure Button where
  /-- The property `tagName`, upper case for an HTML element. -/
  tagName : String
  /-- The property `href`, the empty string when there is none. -/
  href : String
  /-- The list `classList`. -/
  classes : List String
  /-- The property `innerHTML`, the label of the button. -/
  innerHTML : String
  /-- The property `disabled`. -/
  disabled : Bool
deriving DecidableEq, Repr

/-- Callbacks a button hands to `setTimeout`. -/
inductive ButtonTimer where
  /-- Remove the class `loading` and write back the captured `innerHTML`. -/
  | stopLoading (originalText : String)
deriving DecidableEq, Repr

/-- Whether `addButtonLoadingStates` attaches its click listener to the
element: it is matched by `.btn` and does not carry `btn-copy`. -/
def addButtonLoadingStates (button : Button) : Bool :=
  button.classes.contains "btn" && !button.classes.contains "btn-copy"

/-- The click listener of `addButtonLoadingStates`, `this` being `button`:
the button afterwards and the timers it sets. -/
def clickListener (button : Button) : Button × List (Nat × ButtonTimer) :=
  if button.tagName == "A" && button.href != "" then (button, [])
  else
    ({ button with classes := classListAdd button.classes "loading" },
     [(2000, ButtonTimer.stopLoading button.innerHTML)])

/-- A click on an element of the result page, as far as
`addButtonLoadingStates` is concerned. -/
def click (button : Button) : Button × List (Nat × ButtonTimer) :=
  if addButtonLoadingStates button then clickListener button else (button, [])

/-- Running a timer callback of a button. -/
def runButtonTimer (a : ButtonTimer) (button : Button) : Button :=
  match a with
  | .stopLoading originalText =>
    { button with
      classes := classListRemove button.classes "loading"
      innerHTML := originalText }

/-- The function `addImageZoom`. -/
def addImageZoom (s : Page) : Page :=
  match s.image, s.wrapperOverflow with
  | some image, some _ =>
    { s with
      isZoomed := some false
      image := some { image with title := "Click to view full size • Double-click to zoom" } }
  | _, _ => s

/-- The `dblclick` listener of `addImageZoom`. -/
def dblclick (s : Page) : Page :=
  match s.isZoomed, s.image, s.wrapperOverflow with
  | some false, some image, some _ =>
    { s with
      image := some { image with transform := "scale(2)", cursor := "zoom-out" }
      wrapperOverflow := some "auto"
      isZoomed := some true }
  | some true, some image, some _ =>
    { s with
      image := some { image with transform := "scale(1)", cursor := "pointer" }
      wrapperOverflow := some "hidden"
      isZoomed := some false }
  | _, _, _ => s

/-- The image is shown zoomed: the flag is set, the scale is 2x and the
wrapper scrolls. -/
def zoomedIn (s : Page) : Prop :=
  s.isZoomed = some true ∧ s.image.map Image.transform = some "scale(2)" ∧
    s.wrapperOverflow = some "auto"

/-- The image is shown at its own size: the flag is clear, the scale is 1x
and the wrapper hides its overflow. -/
def zoomedOut (s : Page) : Prop :=
  s.isZoomed = some false ∧ s.image.map Image.transform = some "scale(1)" ∧
    s.wrapperOverflow = some "hidden"

/-- The `dblclick` listener is attached and finds its two elements. -/
def zoomReady (s : Page) : Prop :=
  s.image.isSome = true ∧ s.wrapperOverflow.isSome = true

/-- A result page served from `https://host` showing `/result/abc.png`. -/
def resultPage : Page :=
  { origin := "https://host"
    image := some { srcAttr := some "/result/abc.png", transform := "", cursor := "", title := "" }
    wrapperOverflow := some ""
    isZoomed := none
    toast := { message := some "", icon := some "", background := "", classes := ["toast"] }
    clipboardApi := true
    secureContext := true
    clipboard := ""
    textAreas := []
    timers := [] }

/-- The download link of the result page: an anchor with an `href`. -/
def downloadLink : Button :=
  { tagName := "A"
    href := "https://host/download/abc.png"
    classes := ["btn", "btn-download"]
    innerHTML := "Download"
    disabled := false }

/-- A `button` element matched by `.btn`. -/
def plainButton : Button :=
  { tagName := "BUTTON"
    href := ""
    classes := ["btn", "btn-share"]
    innerHTML := "Share"
    disabled := false }

end View

end ImageBackgroundRemove

/-! ## Theorems -/

namespace ImageBackgroundRemove

theorem mem_classListAdd (cs : List String) (c : String) : c ∈ classListAdd cs c := by
  unfold classListAdd
  split
  · assumption
  · simp

theorem not_mem_classListRemove (cs : List String) (c : String) :
    c ∉ classListRemove cs c := by
  simp [classListRemove]

theorem log_1024_of_range (u b : Nat) (hlo : 1024 ^ u ≤ b) (hhi : b < 1024 ^ (u + 1)) :
    Nat.log 1024 b = u :=
  Nat.log_eq_of_pow_le_of_lt_pow hlo hhi

theorem toFixed2_whole (n d : Nat) (hd : 0 < d) : toFixed2 (n * d) d = 100 * n := by
  unfold toFixed2
  have h : 200 * (n * d) + d = d + (2 * d) * (100 * n) := by ring
  rw [h, Nat.add_mul_div_left _ _ (by omega : 0 < 2 * d)]
  have : d / (2 * d) = 0 := Nat.div_eq_of_lt (by omega)
  omega

theorem showHundredths_whole (n : Nat) : showHundredths (100 * n) = toString n := by
  unfold showHundredths
  have h1 : 100 * n % 100 = 0 := by omega
  have h2 : 100 * n / 100 = n := by omega
  simp [h1, h2]

namespace Upload

/-! ### The banner and the reset -/

theorem showError_files (m : String) (s : Page) : (showError m s).files = s.files := by
  unfold showError; cases s.errorElement <;> rfl

theorem showError_convertDisabled (m : String) (s : Page) :
    (showError m s).convertDisabled = s.convertDisabled := by
  unfold showError; cases s.errorElement <;> rfl

theorem showError_convertText (m : String) (s : Page) :
    (showError m s).convertText = s.convertText := by
  unfold showError; cases s.errorElement <;> rfl

theorem showError_convertClasses (m : String) (s : Page) :
    (showError m s).convertClasses = s.convertClasses := by
  unfold showError; cases s.errorElement <;> rfl

theorem showError_message (m : String) (s : Page) :
    (showError m s).errorElement.map Prod.snd = some m := by
  unfold showError; rfl

theorem resetFileInput_files (s : Page) : (resetFileInput s).files = [] := by
  unfold resetFileInput; dsimp only; split <;> rfl

theorem resetFileInput_convertDisabled (s : Page) :
    (resetFileInput s).convertDisabled = true := by
  unfold resetFileInput; dsimp only; split <;> rfl

theorem resetFileInput_previewDisplay (s : Page) :
    (resetFileInput s).previewDisplay = "none" := by
  unfold resetFileInput; dsimp only; split <;> rfl

theorem resetFileInput_errorElement (s : Page) :
    (resetFileInput s).errorElement = s.errorElement := by
  unfold resetFileInput; dsimp only; split <;> rfl

theorem accept_convertDisabled (file : File) (s : Page) :
    (showImagePreview file
      (updateFileLabel file { s with convertDisabled := false })).convertDisabled = false := by
  unfold showImagePreview updateFileLabel; dsimp only
  split <;> split <;> rfl

theorem accept_files (file : File) (s : Page) :
    (showImagePreview file
      (updateFileLabel file { s with convertDisabled := false })).files = s.files := by
  unfold showImagePreview updateFileLabel; dsimp only
  split <;> split <;> rfl

/-! ### The three outcomes of `handleFileSelect` -/

theorem handleFileSelect_accept (s : Page) (file : File) (hfile : s.files.head? = some file)
    (hvalid : isValidImageFile file = true) (hsize : file.size ≤ 16 * 1024 * 1024) :
    handleFileSelect s
      = showImagePreview file (updateFileLabel file { s with convertDisabled := false }) := by
  simp [handleFileSelect, hfile, hvalid, Nat.not_lt.mpr hsize]

theorem handleFileSelect_oversize (s : Page) (file : File) (hfile : s.files.head? = some file)
    (hvalid : isValidImageFile file = true) (hsize : 16 * 1024 * 1024 < file.size) :
    handleFileSelect s = resetFileInput (showError "File size must be less than 16MB" s) := by
  simp [handleFileSelect, hfile, hvalid, hsize]

theorem handleFileSelect_badType (s : Page) (file : File) (hfile : s.files.head? = some file)
    (hvalid : isValidImageFile file = false) :
    handleFileSelect s = resetFileInput (showError "Please select a valid image file" s) := by
  simp [handleFileSelect, hfile, hvalid]

/-- Claim C1.  When the first file of the input has an allowed MIME type, the
convert button is enabled after `handleFileSelect` exactly when the file has
at most `16 * 1024 * 1024` bytes; a larger file gets the banner
"File size must be less than 16MB", an emptied file input and a disabled
convert button. -/
theorem handleFileSelect_size_limit (s : Page) (file : File)
    (hfile : s.files.head? = some file) (htype : file.type ∈ allowedTypes) :
    ((handleFileSelect s).convertDisabled = false ↔ file.size ≤ 16 * 1024 * 1024) ∧
    (16 * 1024 * 1024 < file.size →
      (handleFileSelect s).errorElement.map Prod.snd
        = some "File size must be less than 16MB" ∧
      (handleFileSelect s).files = [] ∧
      (handleFileSelect s).convertDisabled = true) := by
  have hvalid : isValidImageFile file = true := by
    simpa [isValidImageFile] using htype
  by_cases hsize : file.size ≤ 16 * 1024 * 1024
  · rw [handleFileSelect_accept s file hfile hvalid hsize]
    exact ⟨⟨fun _ => hsize, fun _ => accept_convertDisabled file s⟩,
      fun h => absurd hsize (by omega)⟩
  · rw [handleFileSelect_oversize s file hfile hvalid (Nat.lt_of_not_le hsize)]
    refine ⟨⟨fun h => ?_, fun h => absurd h hsize⟩, fun _ => ⟨?_, ?_, ?_⟩⟩
    · rw [resetFileInput_convertDisabled] at h; cases h
    · rw [resetFileInput_errorElement, showError_message]
    · exact resetFileInput_files _
    · exact resetFileInput_convertDisabled _

/-- A PNG of exactly 16 MiB, chosen on the fresh page, enables the convert
button. -/
theorem handleFileSelect_size_limit_witness :
    (handleFileSelect { initialPage with files := [fullPng] }).convertDisabled = false :=
  (handleFileSelect_size_limit { initialPage with files := [fullPng] } fullPng rfl
    (by decide)).1.mpr (by decide)

/-- Claim C2.  When the first file of the input has a MIME type outside the
allowed list, whatever its size, `handleFileSelect` leaves the banner
"Please select a valid image file" and not the size message, an emptied file
input, a hidden preview and a disabled convert button. -/
theorem handleFileSelect_rejects_type (s : Page) (file : File)
    (hfile : s.files.head? = some file) (htype : file.type ∉ allowedTypes) :
    (handleFileSelect s).errorElement.map Prod.snd
      = some "Please select a valid image file" ∧
    (handleFileSelect s).errorElement.map Prod.snd
      ≠ some "File size must be less than 16MB" ∧
    (handleFileSelect s).files = [] ∧
    (handleFileSelect s).previewDisplay = "none" ∧
    (handleFileSelect s).convertDisabled = true := by
  have hvalid : isValidImageFile file = false := by
    simpa [isValidImageFile] using htype
  rw [handleFileSelect_badType s file hfile hvalid, resetFileInput_errorElement,
    showError_message]
  exact ⟨rfl, by decide, resetFileInput_files _, resetFileInput_previewDisplay _,
    resetFileInput_convertDisabled _⟩

/-- A PDF of 20 MB, chosen while the convert button is enabled, gets the type
banner and a disabled button. -/
theorem handleFileSelect_rejects_type_witness :
    (handleFileSelect { initialPage with
        files := [pdfFile], convertDisabled := false }).errorElement.map Prod.snd
      = some "Please select a valid image file" ∧
    (handleFileSelect { initialPage with
        files := [pdfFile], convertDisabled := false }).convertDisabled = true :=
  ⟨(handleFileSelect_rejects_type
      { initialPage with files := [pdfFile], convertDisabled := false } pdfFile rfl
      (by decide)).1,
   (handleFileSelect_rejects_type
      { initialPage with files := [pdfFile], convertDisabled := false } pdfFile rfl
      (by decide)).2.2.2.2⟩

/-! ### The convert button over sequences of events -/

theorem handleFileSelect_guard (s : Page) (file : File) (hfile : s.files.head? = some file) :
    (handleFileSelect s).convertDisabled = false →
      holdsValidFile (handleFileSelect s) = true := by
  by_cases hvalid : isValidImageFile file = true
  · by_cases hsize : file.size ≤ 16 * 1024 * 1024
    · intro _
      simp [holdsValidFile, handleFileSelect_accept s file hfile hvalid hsize, accept_files,
        hfile, hvalid, hsize]
    · rw [handleFileSelect_oversize s file hfile hvalid (Nat.lt_of_not_le hsize),
        resetFileInput_convertDisabled]
      intro h; cases h
  · rw [handleFileSelect_badType s file hfile (by simpa using hvalid),
      resetFileInput_convertDisabled]
    intro h; cases h

theorem step_guard (s : Page) (a : Action) (ha : carriesFile a = true)
    (hinv : s.convertDisabled = false → holdsValidFile s = true) :
    (step s a).convertDisabled = false → holdsValidFile (step s a) = true := by
  cases a with
  | change files =>
    cases files with
    | nil => simp [carriesFile] at ha
    | cons f fs => exact handleFileSelect_guard _ f rfl
  | drop files =>
    cases files with
    | nil => simpa [step, handleDrop, holdsValidFile] using hinv
    | cons f fs =>
      simpa [step, handleDrop] using handleFileSelect_guard { s with
        labelClasses := classListRemove s.labelClasses "dragover", files := f :: fs } f rfl
  | submit =>
    simp only [step, submitEvent, initializeFormHandling, dispatchEvent, if_true, List.foldl]
    unfold handleFormSubmit
    cases hh : s.files.head? with
    | none =>
      simp only [showError_convertDisabled]
      intro h
      have := hinv h
      simp [holdsValidFile, hh] at this
    | some f => simp
  | reset =>
    simp only [step, resetFileInput_convertDisabled]; intro h; cases h

theorem run_guard (as : List Action) (s : Page) (has : as.all carriesFile = true)
    (hinv : s.convertDisabled = false → holdsValidFile s = true) :
    (run s as).convertDisabled = false → holdsValidFile (run s as) = true := by
  induction as generalizing s with
  | nil => simpa [run] using hinv
  | cons a as ih =>
    rw [List.all_cons, Bool.and_eq_true] at has
    simpa [run] using ih (step s a) has.2 (step_guard s a has.1 hinv)

/-- Claim C3, as the code has it.  From a page with no file chosen and the
convert button disabled, after any sequence of change, drop, submit and reset
events in which every change event carries at least one file, the convert
button is enabled only if the first file of the input has an allowed MIME type
and at most `16 * 1024 * 1024` bytes. -/
theorem run_convert_enabled_only_with_valid_file (s : Page) (as : List Action)
    (hfiles : s.files = []) (hdisabled : s.convertDisabled = true)
    (hcarry : as.all carriesFile = true) :
    (run s as).convertDisabled = false → holdsValidFile (run s as) = true := by
  have _ := hfiles
  exact run_guard as s hcarry (fun h => by rw [hdisabled] at h; cases h)

/-- A rejected PDF followed by a dropped PNG: the button ends enabled and the
input holds the PNG. -/
theorem run_convert_enabled_only_with_valid_file_witness :
    (run initialPage [Action.change [pdfFile], Action.drop [smallPng]]).convertDisabled
      = false ∧
    holdsValidFile (run initialPage [Action.change [pdfFile], Action.drop [smallPng]])
      = true :=
  ⟨by decide,
   run_convert_enabled_only_with_valid_file initialPage
     [Action.change [pdfFile], Action.drop [smallPng]] rfl rfl (by decide) (by decide)⟩

/-- Claim C3 fails as stated.  A change event carrying a valid PNG followed by
a change event that leaves the file input empty ends with the convert button
enabled and no file in the input. -/
theorem run_empty_change_leaves_convert_enabled :
    (run initialPage [Action.change [smallPng], Action.change []]).convertDisabled = false ∧
    (run initialPage [Action.change [smallPng], Action.change []]).files = [] ∧
    holdsValidFile (run initialPage [Action.change [smallPng], Action.change []])
      = false := by
  decide

/-! ### Submitting the form -/

theorem submitEvent_goes_ahead (s : Page) : (submitEvent s).2 = true := by
  simp [submitEvent, initializeFormHandling, dispatchEvent]

theorem handleFormSubmit_no_file (s : Page) (hfiles : s.files = []) :
    (handleFormSubmit s).2 = false ∧
    (handleFormSubmit s).1.errorElement.map Prod.snd = some "Please select a file first" ∧
    (handleFormSubmit s).1.convertText = s.convertText ∧
    (handleFormSubmit s).1.convertDisabled = s.convertDisabled ∧
    (handleFormSubmit s).1.convertClasses = s.convertClasses := by
  simp [handleFormSubmit, hfiles, showError_message, showError_convertText,
    showError_convertDisabled, showError_convertClasses]

/-- Claim C5 at the fresh page, where no file is chosen.  `handleFormSubmit`
returns `false`, shows "Please select a file first" and leaves the convert
button as it was, yet the `submit` event is not cancelled: the listener is
attached with `addEventListener` and never calls `preventDefault`, so the
form submission goes ahead. -/
theorem submitEvent_without_file_not_blocked :
    initialPage.files = [] ∧
    (handleFormSubmit initialPage).2 = false ∧
    (handleFormSubmit initialPage).1.errorElement.map Prod.snd
      = some "Please select a file first" ∧
    (handleFormSubmit initialPage).1.convertText = initialPage.convertText ∧
    (handleFormSubmit initialPage).1.convertDisabled = initialPage.convertDisabled ∧
    (handleFormSubmit initialPage).1.convertClasses = initialPage.convertClasses ∧
    (submitEvent initialPage).1 = (handleFormSubmit initialPage).1 ∧
    (submitEvent initialPage).2 = true := by
  decide

/-! ### Formatting a byte count -/

theorem upload_formatFileSize_whole (n u : Nat) (h1 : 1 ≤ n) (h2 : n ≤ 1023) :
    formatFileSize (n * 1024 ^ u)
      = toString n ++ " " ++ unitName ["Bytes", "KB", "MB", "GB"] u := by
  have hpos : 0 < 1024 ^ u := Nat.pow_pos (by norm_num)
  have hne : n * 1024 ^ u ≠ 0 := by positivity
  have hlog : Nat.log 1024 (n * 1024 ^ u) = u := by
    apply log_1024_of_range
    · exact Nat.le_mul_of_pos_left _ h1
    · rw [pow_succ, Nat.mul_comm (1024 ^ u)]
      exact Nat.mul_lt_mul_of_pos_right (by omega) hpos
  unfold formatFileSize
  simp only [hne, if_false, hlog, toFixed2_whole n _ hpos, showHundredths_whole]

theorem upload_formatFileSize_examples :
    formatFileSize 0 = "0 Bytes" ∧ formatFileSize 1024 = "1 KB" ∧
    formatFileSize 1536 = "1.5 KB" ∧ formatFileSize (16 * 1024 * 1024) = "16 MB" := by
  have l1 : Nat.log 1024 1024 = 1 := log_1024_of_range 1 _ (by norm_num) (by norm_num)
  have l2 : Nat.log 1024 1536 = 1 := log_1024_of_range 1 _ (by norm_num) (by norm_num)
  have l3 : Nat.log 1024 (16 * 1024 * 1024) = 2 :=
    log_1024_of_range 2 _ (by norm_num) (by norm_num)
  refine ⟨rfl, ?_, ?_, ?_⟩
  · unfold formatFileSize; rw [if_neg (by norm_num)]; simp only [l1]; decide
  · unfold formatFileSize; rw [if_neg (by norm_num)]; simp only [l2]; decide
  · unfold formatFileSize; rw [if_neg (by norm_num)]; simp only [l3]; decide

end Upload

namespace View

theorem view_formatFileSize_whole (n u : Nat) (h1 : 1 ≤ n) (h2 : n ≤ 1023) :
    formatFileSize (n * 1024 ^ u)
      = toString n ++ " " ++ unitName ["Bytes", "KB", "MB", "GB"] u := by
  have hpos : 0 < 1024 ^ u := Nat.pow_pos (by norm_num)
  have hne : n * 1024 ^ u ≠ 0 := by positivity
  have hlog : Nat.log 1024 (n * 1024 ^ u) = u := by
    apply log_1024_of_range
    · exact Nat.le_mul_of_pos_left _ h1
    · rw [pow_succ, Nat.mul_comm (1024 ^ u)]
      exact Nat.mul_lt_mul_of_pos_right (by omega) hpos
  unfold formatFileSize
  simp only [hne, if_false, hlog, toFixed2_whole n _ hpos, showHundredths_whole]

theorem view_formatFileSize_examples :
    formatFileSize 0 = "0 Bytes" ∧ formatFileSize 1024 = "1 KB" ∧
    formatFileSize 1536 = "1.5 KB" ∧ formatFileSize (16 * 1024 * 1024) = "16 MB" := by
  have l1 : Nat.log 1024 1024 = 1 := log_1024_of_range 1 _ (by norm_num) (by norm_num)
  have l2 : Nat.log 1024 1536 = 1 := log_1024_of_range 1 _ (by norm_num) (by norm_num)
  have l3 : Nat.log 1024 (16 * 1024 * 1024) = 2 :=
    log_1024_of_range 2 _ (by norm_num) (by norm_num)
  refine ⟨rfl, ?_, ?_, ?_⟩
  · unfold formatFileSize; rw [if_neg (by norm_num)]; simp only [l1]; decide
  · unfold formatFileSize; rw [if_neg (by norm_num)]; simp only [l2]; decide
  · unfold formatFileSize; rw [if_neg (by norm_num)]; simp only [l3]; decide

/-! ### Copying the link -/

/-- Claim C6.  On a page whose image has the `src` attribute `p`, in a secure
context with the clipboard capability and a write that succeeds,
`copyImageUrl` puts the origin followed by `p` on the clipboard and shows the
success toast "Link copied to clipboard!", to be hidden by a timer of
3000 ms. -/
theorem copyImageUrl_secure_write (s : Page) (image : Image) (p m i : String)
    (exec : ExecOutcome)
    (himage : s.image = some image) (hsrc : image.srcAttr = some p)
    (hclip : s.clipboardApi = true) (hsecure : s.secureContext = true)
    (hmessage : s.toast.message = some m) (hicon : s.toast.icon = some i) :
    (copyImageUrl true exec s).clipboard = s.origin ++ p ∧
    (copyImageUrl true exec s).toast.message = some "Link copied to clipboard!" ∧
    (copyImageUrl true exec s).toast.icon = some "✅" ∧
    "show" ∈ (copyImageUrl true exec s).toast.classes ∧
    (copyImageUrl true exec s).timers = s.timers ++ [(3000, TimerAction.hideToast)] := by
  have h : copyImageUrl true exec s
      = showToast "Link copied to clipboard!" true { s with clipboard := s.origin ++ p } := by
    simp [copyImageUrl, himage, hsrc, hclip, hsecure]
  rw [h]
  simp [showToast, hmessage, hicon, mem_classListAdd]

/-- Origin `https://host` and path `/result/abc.png` put
`https://host/result/abc.png` on the clipboard. -/
theorem copyImageUrl_secure_write_witness :
    (copyImageUrl true ExecOutcome.copied resultPage).clipboard
      = "https://host/result/abc.png" ∧
    (copyImageUrl true ExecOutcome.copied resultPage).toast.message
      = some "Link copied to clipboard!" :=
  ⟨(copyImageUrl_secure_write resultPage _ "/result/abc.png" "" "" ExecOutcome.copied
      rfl rfl rfl rfl rfl rfl).1,
   (copyImageUrl_secure_write resultPage _ "/result/abc.png" "" "" ExecOutcome.copied
      rfl rfl rfl rfl rfl rfl).2.1⟩

/-! ### Zooming by double click -/

theorem dblclick_zooms_in (s : Page) (hz : s.isZoomed = some false) (hr : zoomReady s) :
    zoomedIn (dblclick s) ∧ zoomReady (dblclick s) := by
  obtain ⟨hi, hw⟩ := hr
  cases him : s.image with
  | none => simp [him] at hi
  | some image =>
    cases hwr : s.wrapperOverflow with
    | none => simp [hwr] at hw
    | some w => simp [dblclick, hz, him, hwr, zoomedIn, zoomReady]

theorem dblclick_zooms_out (s : Page) (hz : s.isZoomed = some true) (hr : zoomReady s) :
    zoomedOut (dblclick s) ∧ zoomReady (dblclick s) := by
  obtain ⟨hi, hw⟩ := hr
  cases him : s.image with
  | none => simp [him] at hi
  | some image =>
    cases hwr : s.wrapperOverflow with
    | none => simp [hwr] at hw
    | some w => simp [dblclick, hz, him, hwr, zoomedOut, zoomReady]

theorem addImageZoom_ready (s : Page) (image : Image) (w : String)
    (himage : s.image = some image) (hwrap : s.wrapperOverflow = some w) :
    (addImageZoom s).isZoomed = some false ∧ zoomReady (addImageZoom s) := by
  simp [addImageZoom, himage, hwrap, zoomReady]

theorem dblclick_iterate (s : Page) (hz : s.isZoomed = some false) (hr : zoomReady s)
    (n : Nat) :
    zoomReady (dblclick^[n] s) ∧
    (Even n → (dblclick^[n] s).isZoomed = some false ∧ (0 < n → zoomedOut (dblclick^[n] s))) ∧
    (Odd n → zoomedIn (dblclick^[n] s)) := by
  induction n with
  | zero => exact ⟨hr, fun _ => ⟨hz, fun h => absurd h (by omega)⟩, fun h => by simp at h⟩
  | succ n ih =>
    rw [Function.iterate_succ_apply']
    obtain ⟨hr', he, ho⟩ := ih
    rcases Nat.even_or_odd n with hn | hn
    · have := dblclick_zooms_in _ (he hn).1 hr'
      refine ⟨this.2, fun h => ?_, fun _ => this.1⟩
      exact absurd h (by simpa [Nat.even_add_one] using hn)
    · have := dblclick_zooms_out _ (ho hn).1 hr'
      refine ⟨this.2, fun _ => ⟨this.1.1, fun _ => this.1⟩, fun h => ?_⟩
      rw [Nat.odd_add_one] at h
      exact absurd hn h

/-- Claim C7.  On a page that has the image and its wrapper, two double
clicks after `addImageZoom` leave the zoom flag clear, the image at 1x scale
and the wrapper with hidden overflow; after `n` double clicks the image is
zoomed (flag set, 2x scale, scrollable wrapper) exactly when `n` is odd. -/
theorem dblclick_parity (s : Page) (image : Image) (w : String)
    (himage : s.image = some image) (hwrap : s.wrapperOverflow = some w) :
    zoomedOut (dblclick (dblclick (addImageZoom s))) ∧
    ∀ n : Nat, zoomedIn (dblclick^[n] (addImageZoom s)) ↔ Odd n := by
  have h0 := addImageZoom_ready s image w himage hwrap
  refine ⟨?_, fun n => ⟨fun h => ?_, fun h => ((dblclick_iterate _ h0.1 h0.2 n).2.2) h⟩⟩
  · exact ((dblclick_iterate _ h0.1 h0.2 2).2.1 (by decide)).2 (by decide)
  · by_contra hodd
    have hev : Even n := Nat.not_odd_iff_even.mp hodd
    have := ((dblclick_iterate _ h0.1 h0.2 n).2.1 hev).1
    have h2 := h.1
    rw [this] at h2
    simp at h2

/-- Two double clicks on the sample result page end zoomed out. -/
theorem dblclick_parity_witness :
    zoomedOut (dblclick (dblclick (addImageZoom resultPage))) :=
  (dblclick_parity resultPage _ "" rfl rfl).1

/-! ### The loading state of buttons -/

/-- Claim C8 fails as stated.  The download link is matched by `.btn`, does
not carry `btn-copy`, and a click on it neither adds the class `loading` nor
sets a timer. -/
theorem click_link_not_loading :
    "btn" ∈ downloadLink.classes ∧ "btn-copy" ∉ downloadLink.classes ∧
    "loading" ∉ (click downloadLink).1.classes ∧ (click downloadLink).2 = [] := by
  decide

/-- Claim C8, as the code has it.  For an element matched by `.btn` without
the class `btn-copy`: unless it is an anchor carrying an `href`, a click adds
the class `loading`, keeps the disabled flag and the label, and sets one timer
of 2000 ms whose callback removes the class and writes the same label back;
on an anchor carrying an `href` a click changes nothing and sets no timer. -/
theorem click_loading_unless_link (b : Button) (hbtn : "btn" ∈ b.classes)
    (hcopy : "btn-copy" ∉ b.classes) :
    (¬ (b.tagName = "A" ∧ b.href ≠ "") →
      "loading" ∈ (click b).1.classes ∧
      (click b).1.disabled = b.disabled ∧
      (click b).1.innerHTML = b.innerHTML ∧
      (click b).2 = [(2000, ButtonTimer.stopLoading b.innerHTML)] ∧
      "loading" ∉ (runButtonTimer (ButtonTimer.stopLoading b.innerHTML) (click b).1).classes ∧
      (runButtonTimer (ButtonTimer.stopLoading b.innerHTML) (click b).1).innerHTML
        = b.innerHTML) ∧
    (b.tagName = "A" ∧ b.href ≠ "" → click b = (b, [])) := by
  have hl : addButtonLoadingStates b = true := by
    simp [addButtonLoadingStates, hbtn, hcopy]
  constructor
  · intro hna
    have hc : click b = ({ b with classes := classListAdd b.classes "loading" },
        [(2000, ButtonTimer.stopLoading b.innerHTML)]) := by
      simp only [click, hl, if_true, clickListener]
      rw [if_neg]
      simpa using hna
    rw [hc]
    exact ⟨mem_classListAdd _ _, rfl, rfl, rfl, not_mem_classListRemove _ _, rfl⟩
  · intro ha
    simp only [click, hl, if_true, clickListener]
    rw [if_pos]
    simpa using ha

/-- A click on a `button` element marks it as loading and sets the timer of
2000 ms. -/
theorem click_loading_unless_link_witness :
    "loading" ∈ (click plainButton).1.classes ∧
    (click plainButton).2 = [(2000, ButtonTimer.stopLoading "Share")] :=
  ⟨((click_loading_unless_link plainButton (by decide) (by decide)).1 (by decide)).1,
   ((click_loading_unless_link plainButton (by decide) (by decide)).1 (by decide)).2.2.2.1⟩

/-! ### Keyboard shortcuts -/

/-- Claim C9.  The `keydown` listener calls `copyImageUrl` exactly when Ctrl
or Meta is held, the key is "c" and the selection is the empty string, and
then it also prevents the default action; apart from that case it prevents
the default action only for Ctrl or Meta with the key "s".  With text
selected it does not call `copyImageUrl`, and on the key "c" it does not
prevent the default action. -/
theorem keydown_copy_link (e : KeyEvent) (selection : String) (downloadBtn : Bool)
    (backBtn : Option String) :
    (Call.copyImageUrl ∈ (keydown e selection downloadBtn backBtn).calls ↔
      ((e.ctrlKey = true ∨ e.metaKey = true) ∧ e.key = "c" ∧ selection = "")) ∧
    ((keydown e selection downloadBtn backBtn).defaultPrevented = true ↔
      ((e.ctrlKey = true ∨ e.metaKey = true) ∧
        ((e.key = "c" ∧ selection = "") ∨ e.key = "s"))) ∧
    ((Call.copyImageUrl ∈ (keydown e selection downloadBtn backBtn).calls ∧
        (keydown e selection downloadBtn backBtn).defaultPrevented = true) ↔
      ((e.ctrlKey = true ∨ e.metaKey = true) ∧ e.key = "c" ∧ selection = "")) ∧
    (selection ≠ "" →
      Call.copyImageUrl ∉ (keydown e selection downloadBtn backBtn).calls ∧
      (e.key = "c" → (keydown e selection downloadBtn backBtn).defaultPrevented = false)) := by
  rcases e with ⟨ctrl, cmd, key⟩
  by_cases hc : key = "c"
  · subst hc
    by_cases hsel : selection = "" <;> cases ctrl <;> cases cmd <;> cases downloadBtn <;>
      cases backBtn <;> simp [keydown, hsel]
  · by_cases hs : key = "s"
    · subst hs
      cases ctrl <;> cases cmd <;> cases downloadBtn <;> cases backBtn <;> simp [keydown]
    · by_cases hE : key = "Escape" <;>
        cases ctrl <;> cases cmd <;> cases downloadBtn <;>
        cases backBtn <;> simp [keydown, hc, hs, hE]

end View

/-! ### The shared byte-size formatter -/

/-- Claim C4.  In both controllers `formatFileSize` maps 0 to "0 Bytes",
1024 to "1 KB", 1536 to "1.5 KB" and `16 * 1024 * 1024` to "16 MB". -/
theorem formatFileSize_examples :
    (Upload.formatFileSize 0 = "0 Bytes" ∧ Upload.formatFileSize 1024 = "1 KB" ∧
      Upload.formatFileSize 1536 = "1.5 KB" ∧
      Upload.formatFileSize (16 * 1024 * 1024) = "16 MB") ∧
    (View.formatFileSize 0 = "0 Bytes" ∧ View.formatFileSize 1024 = "1 KB" ∧
      View.formatFileSize 1536 = "1.5 KB" ∧
      View.formatFileSize (16 * 1024 * 1024) = "16 MB") :=
  ⟨Upload.upload_formatFileSize_examples, View.view_formatFileSize_examples⟩

/-- Claim C10.  For `1 ≤ n ≤ 1023` and a unit index `u ≤ 3`, both copies of
`formatFileSize` map `n * 1024 ^ u` to the decimal numeral of `n`, a space and
the `u`-th name of `["Bytes", "KB", "MB", "GB"]`, which exists. -/
theorem formatFileSize_whole_multiple (n u : Nat) (h1 : 1 ≤ n) (h2 : n ≤ 1023)
    (hu : u ≤ 3) :
    ∃ name, ["Bytes", "KB", "MB", "GB"].get? u = some name ∧
      Upload.formatFileSize (n * 1024 ^ u) = toString n ++ " " ++ name ∧
      View.formatFileSize (n * 1024 ^ u) = toString n ++ " " ++ name := by
  have hname : ∃ name, ["Bytes", "KB", "MB", "GB"].get? u = some name := by
    interval_cases u <;> exact ⟨_, rfl⟩
  obtain ⟨name, hname⟩ := hname
  refine ⟨name, hname, ?_, ?_⟩
  · rw [Upload.upload_formatFileSize_whole n u h1 h2, unitName, hname]; rfl
  · rw [View.view_formatFileSize_whole n u h1 h2, unitName, hname]; rfl

/-- The byte count `5 * 1024 ^ 2` is shown as "5 MB" on both pages. -/
theorem formatFileSize_whole_multiple_witness :
    Upload.formatFileSize (5 * 1024 ^ 2) = "5 MB" ∧
    View.formatFileSize (5 * 1024 ^ 2) = "5 MB" := by
  obtain ⟨name, hname, hu, hv⟩ :=
    formatFileSize_whole_multiple 5 2 (by decide) (by decide) (by decide)
  have hn : name = "MB" := by
    simpa using hname.symm
  subst hn
  exact ⟨hu.trans (by decide), hv.trans (by decide)⟩

end ImageBackgroundRemove
